import Mathlib

/-!
Shallow embedding of `MultiStepTranslate.py`: a three-step translation
pipeline (initial translation, refinement, arbitration) driven by an HTTP
completion endpoint.  The HTTP layer is modelled as a function from the
transmitted prompt to an abstract response (`ApiResult`); the file system
of the driver is modelled as a partial map from paths to contents.
Python exceptions are modelled by the `PyError` type returned in `Except`.
-/

/-- Python `str.strip` on a character list: drop whitespace from both ends. -/
def stripChars (l : List Char) : List Char :=
  (l.dropWhile Char.isWhitespace).rdropWhile Char.isWhitespace

/-- Python `str.strip`: remove leading and trailing whitespace characters. -/
def pyStrip (s : String) : String :=
  ⟨stripChars s.data⟩

/-- Does `hay` start with `needle`? -/
def substrAt : List Char → List Char → Bool
  | [], _ => true
  | _ :: _, [] => false
  | n :: ns, h :: hs => n == h && substrAt ns hs

/-- Does the haystack contain `needle` as a contiguous substring? -/
def hasSubstr (needle : List Char) : List Char → Bool
  | [] => substrAt needle []
  | h :: t => substrAt needle (h :: t) || hasSubstr needle t

/-- Python `needle in hay` on strings: substring containment. -/
def pyIn (needle hay : String) : Bool :=
  hasSubstr needle.data hay.data

/-- One element of the JSON `choices` array; `text` is `none` when the
`"text"` field is missing. -/
structure Choice where
  text : Option String
deriving DecidableEq

/-- The JSON body of a completion response; `choices` is `none` when the
`"choices"` field is missing. -/
structure CompletionBody where
  choices : Option (List Choice)
deriving DecidableEq

/-- Outcome of one HTTP POST to the completion endpoint, as seen by
`make_api_call`: a transport-level failure (connection error, timeout),
a non-2xx status (surfaced by `raise_for_status`), or a 2xx response
with a JSON body. -/
inductive ApiResult where
  | transportError (msg : String)
  | httpError (msg : String)
  | ok (body : CompletionBody)
deriving DecidableEq

/-- The Python exception kinds this program can raise past `make_api_call`
and `translate_text`. -/
inductive PyError where
  | runtimeError (msg : String)
  | valueError (msg : String)
  | indexError (msg : String)
deriving DecidableEq

instance {ε α : Type} [DecidableEq ε] [DecidableEq α] : DecidableEq (Except ε α) := fun x y =>
  match x, y with
  | .ok a, .ok b =>
    if h : a = b then isTrue (by rw [h]) else isFalse (by simp [h])
  | .error a, .error b =>
    if h : a = b then isTrue (by rw [h]) else isFalse (by simp [h])
  | .ok _, .error _ => isFalse (by simp)
  | .error _, .ok _ => isFalse (by simp)

/-- `DEFAULT_MODEL = "text-davinci-003"`. -/
def DEFAULT_MODEL : String := "text-davinci-003"

/-- `DEFAULT_TEMPERATURE = 0.7`. -/
def DEFAULT_TEMPERATURE : Float := 0.7

/-- The JSON request payload built by `make_api_call` (lines 33-38),
at the default `max_tokens`, `temperature` and `model` used by every
call in this program. -/
structure Payload where
  model : String
  prompt : String
  maxTokens : Nat
  temperature : Float

/-- The payload `make_api_call` sends for a given prompt: the prompt is
stripped of leading and trailing whitespace before transmission. -/
def apiPayload (prompt : String) : Payload :=
  ⟨DEFAULT_MODEL, pyStrip prompt, 1000, DEFAULT_TEMPERATURE⟩

/-- Lines 44-47 of the source: `json_response.get("choices", [{}])[0]
.get("text", "").strip()`, then reject an empty result.  A missing
`choices` field defaults to a one-element array of an empty object;
indexing an empty `choices` array raises `IndexError`; a missing `text`
field defaults to the empty string; an empty stripped text raises
`RuntimeError`. -/
def extractText (body : CompletionBody) : Except PyError String :=
  match body.choices.getD [⟨none⟩] with
  | [] => .error (.indexError "list index out of range")
  | c :: _ =>
    let text := pyStrip (c.text.getD "")
    if text = "" then .error (.runtimeError "API returned an empty response.")
    else .ok text

/-- `make_api_call`: build the payload, POST it, and extract the first
choice text.  `requests` exceptions (transport failures and non-2xx
statuses) are re-raised as `RuntimeError`; the `RuntimeError` for an
empty result and the `IndexError` for an empty `choices` array are not
`requests` exceptions and propagate unchanged. -/
def make_api_call (service : String → ApiResult) (prompt : String) :
    Except PyError String :=
  match service (apiPayload prompt).prompt with
  | .transportError e => .error (.runtimeError ("API call failed: " ++ e))
  | .httpError e => .error (.runtimeError ("API call failed: " ++ e))
  | .ok body => extractText body

/-- The step-1 prompt template (lines 62-67), verbatim. -/
def initial_prompt (source_text source_language target_language : String) : String :=
  "\nTranslate the following text from " ++ source_language ++ " to " ++
  target_language ++ ":\n" ++ source_text ++
  "\nEnsure the translation is accurate, fluent, and captures all nuances of the original text. \nProvide only the translation in " ++
  target_language ++ ".\n"

/-- The step-2 prompt template (lines 71-75), verbatim. -/
def refine_prompt (initial_translation target_language : String) : String :=
  "\nImprove the following translation for accuracy and fluency. \nMake sure it captures the original meaning and reads naturally in " ++
  target_language ++ ":\n" ++ initial_translation ++ "\n"

/-- The step-3 prompt template (lines 79-84), verbatim. -/
def compare_prompt (initial_translation refined_translation target_language : String) : String :=
  "\nBetween the two translations below, indicate which is better based on accuracy, fluency, \nand naturalness in " ++
  target_language ++ ". Respond with \x27Version 1\x27 or \x27Version 2\x27:\nVersion 1: " ++
  initial_translation ++ "\nVersion 2: " ++ refined_translation ++ "\n"

/-- `translate_text`: three sequential `make_api_call` invocations, then
select by substring search in the verdict; a verdict containing neither
marker raises `ValueError` with the raw verdict text. -/
def translate_text (service : String → ApiResult)
    (source_text source_language target_language : String) :
    Except PyError String := do
  let initial_translation ← make_api_call service
    (initial_prompt source_text source_language target_language)
  let refined_translation ← make_api_call service
    (refine_prompt initial_translation target_language)
  let best_version ← make_api_call service
    (compare_prompt initial_translation refined_translation target_language)
  if pyIn "Version 1" best_version then
    pure initial_translation
  else if pyIn "Version 2" best_version then
    pure refined_translation
  else
    .error (.valueError ("Unexpected output from API during comparison: " ++ best_version))

/-- The sequence of prompts actually transmitted to the completion
endpoint by one `translate_text` run (each stripped, as `make_api_call`
sends them): a step that fails ends the sequence. -/
def translate_text_trace (service : String → ApiResult)
    (source_text source_language target_language : String) : List String :=
  let q1 := initial_prompt source_text source_language target_language
  match make_api_call service q1 with
  | .error _ => [pyStrip q1]
  | .ok initial_translation =>
    let q2 := refine_prompt initial_translation target_language
    match make_api_call service q2 with
    | .error _ => [pyStrip q1, pyStrip q2]
    | .ok refined_translation =>
      [pyStrip q1, pyStrip q2,
       pyStrip (compare_prompt initial_translation refined_translation target_language)]

/-- The completion service answers the (stripped) prompt `q` with a
well-shaped 2xx response whose first choice carries a text that is empty
after trimming. -/
def returnsEmptyText (service : String → ApiResult) (q : String) : Prop :=
  ∃ t rest, service (pyStrip q) = .ok ⟨some (⟨some t⟩ :: rest)⟩ ∧ pyStrip t = ""

/-- The one-line diagnostic `main` prints, tagged by the `except` clause
that produced it (lines 116-127); `success` when no exception reached
`main`. -/
inductive Diag where
  | success
  | fileNotFound (msg : String)
  | translationError (msg : String)
  | verdictError (msg : String)
  | unexpected (msg : String)
deriving DecidableEq

/-- Observable outcome of one `main` run: process exit code, the printed
diagnostic, and the contents written to the output file (`none` when the
output file was never opened). -/
structure MainResult where
  exitCode : Nat
  diag : Diag
  written : Option String
deriving DecidableEq

/-- `main` (lines 105-127) over a file system modelled as a map from
paths to contents: read the input file (`FileNotFoundError` when
missing), run `translate_text`, and only then write the result to the
output file.  `RuntimeError`, `ValueError` and any other exception map
to distinct diagnostics, each with exit code 1. -/
def run_main (fs : String → Option String) (service : String → ApiResult)
    (infile outfile source_language target_language : String) : MainResult :=
  match fs infile with
  | none => ⟨1, .fileNotFound ("Error: File not found - " ++ infile), none⟩
  | some source_text =>
    match translate_text service source_text source_language target_language with
    | .ok t => ⟨0, .success, some t⟩
    | .error (.runtimeError m) => ⟨1, .translationError ("Error during translation: " ++ m), none⟩
    | .error (.valueError m) => ⟨1, .verdictError ("Translation error: " ++ m), none⟩
    | .error (.indexError m) => ⟨1, .unexpected ("Unexpected error: " ++ m), none⟩

/-- The prompts transmitted to the completion endpoint during one `main`
run: none when the input file is missing, otherwise those of the
`translate_text` run. -/
def run_main_calls (fs : String → Option String) (service : String → ApiResult)
    (infile outfile source_language target_language : String) : List String :=
  match fs infile with
  | none => []
  | some source_text => translate_text_trace service source_text source_language target_language

/-! ### Basic lemmas: stripping, substring search, `Except` bind -/

theorem exceptBindOkEq {ε α β : Type} (a : α) (f : α → Except ε β) :
    (Except.ok a : Except ε α) >>= f = f a := rfl

theorem exceptBindErrEq {ε α β : Type} (e : ε) (f : α → Except ε β) :
    (Except.error e : Except ε α) >>= f = Except.error e := rfl

theorem rdropWhile_append_rtakeWhile (p : Char → Bool) (l : List Char) :
    l.rdropWhile p ++ l.rtakeWhile p = l := by
  rw [List.rdropWhile, List.rtakeWhile, ← List.reverse_append,
    List.takeWhile_append_dropWhile, List.reverse_reverse]

theorem dropWhile_stripChars (l : List Char) :
    (stripChars l).dropWhile Char.isWhitespace = stripChars l := by
  rw [List.dropWhile_eq_self_iff]
  intro hl
  have hpre : stripChars l <+: l.dropWhile Char.isWhitespace :=
    List.rdropWhile_prefix _ _
  have hlen : 0 < (l.dropWhile Char.isWhitespace).length :=
    lt_of_lt_of_le hl hpre.length_le
  have h0 := List.dropWhile_get_zero_not Char.isWhitespace l hlen
  have hx : (stripChars l).get ⟨0, hl⟩ =
      (l.dropWhile Char.isWhitespace).get ⟨0, hlen⟩ := by
    simp only [List.get_eq_getElem]
    exact hpre.getElem hl
  rw [hx]
  exact h0

theorem stripChars_idem (l : List Char) :
    stripChars (stripChars l) = stripChars l := by
  show ((stripChars l).dropWhile Char.isWhitespace).rdropWhile Char.isWhitespace
      = stripChars l
  rw [dropWhile_stripChars]
  show ((l.dropWhile Char.isWhitespace).rdropWhile Char.isWhitespace).rdropWhile
      Char.isWhitespace = _
  rw [List.rdropWhile_idempotent]
  rfl

theorem pyStrip_idem (s : String) : pyStrip (pyStrip s) = pyStrip s := by
  show (⟨stripChars (stripChars s.data)⟩ : String) = ⟨stripChars s.data⟩
  rw [stripChars_idem]

theorem stripChars_split (l : List Char) :
    ∃ pre suf, l = pre ++ stripChars l ++ suf ∧
      (∀ c ∈ pre, Char.isWhitespace c) ∧ (∀ c ∈ suf, Char.isWhitespace c) := by
  refine ⟨l.takeWhile Char.isWhitespace,
    (l.dropWhile Char.isWhitespace).rtakeWhile Char.isWhitespace, ?_, ?_, ?_⟩
  · unfold stripChars
    conv_lhs => rw [← List.takeWhile_append_dropWhile Char.isWhitespace l]
    rw [List.append_assoc, rdropWhile_append_rtakeWhile]
  · intro c hc
    exact List.mem_takeWhile_imp hc
  · intro c hc
    exact List.mem_rtakeWhile_imp hc

theorem pyStrip_split (s : String) :
    ∃ pre suf, s.data = pre ++ (pyStrip s).data ++ suf ∧
      (∀ c ∈ pre, Char.isWhitespace c) ∧ (∀ c ∈ suf, Char.isWhitespace c) :=
  stripChars_split s.data

theorem substrAt_append_self (n r : List Char) : substrAt n (n ++ r) = true := by
  induction n with
  | nil => rfl
  | cons c cs ih => simp [substrAt, ih]

theorem hasSubstr_append_self (n pre : List Char) : hasSubstr n (pre ++ n) = true := by
  induction pre with
  | nil =>
    cases n with
    | nil => rfl
    | cons c cs =>
      show (substrAt (c :: cs) (c :: cs) || hasSubstr (c :: cs) cs) = true
      have h := substrAt_append_self (c :: cs) []
      simp only [List.append_nil] at h
      simp [h]
  | cons p ps ih =>
    show (substrAt n (p :: (ps ++ n)) || hasSubstr n (ps ++ n)) = true
    simp [ih]

theorem pyIn_append_self (pre s : String) : pyIn s (pre ++ s) = true := by
  show hasSubstr s.data (pre ++ s).data = true
  rw [String.data_append]
  exact hasSubstr_append_self s.data pre.data

/-! ### Equation lemmas for `extractText`, `make_api_call`, `translate_text` -/

theorem extractText_nil (body : CompletionBody)
    (h : body.choices.getD [⟨none⟩] = []) :
    extractText body = .error (.indexError "list index out of range") := by
  unfold extractText
  rw [h]

theorem extractText_cons (body : CompletionBody) (c : Choice) (rest : List Choice)
    (h : body.choices.getD [⟨none⟩] = c :: rest) :
    extractText body =
      if pyStrip (c.text.getD "") = ""
      then .error (.runtimeError "API returned an empty response.")
      else .ok (pyStrip (c.text.getD "")) := by
  unfold extractText
  rw [h]

theorem extractText_ok_inv (body : CompletionBody) (s : String)
    (h : extractText body = .ok s) : s ≠ "" ∧ pyStrip s = s := by
  cases hc : body.choices.getD [⟨none⟩] with
  | nil =>
    rw [extractText_nil body hc] at h
    exact Except.noConfusion h
  | cons c rest =>
    rw [extractText_cons body c rest hc] at h
    by_cases he : pyStrip (c.text.getD "") = ""
    · rw [if_pos he] at h
      exact Except.noConfusion h
    · rw [if_neg he] at h
      have hs : pyStrip (c.text.getD "") = s := Except.ok.inj h
      rw [← hs]
      exact ⟨he, pyStrip_idem _⟩

theorem make_api_call_eq_ok (service : String → ApiResult) (prompt : String)
    (body : CompletionBody) (h : service (apiPayload prompt).prompt = .ok body) :
    make_api_call service prompt = extractText body := by
  unfold make_api_call
  rw [h]

theorem make_api_call_eq_transport (service : String → ApiResult) (prompt e : String)
    (h : service (apiPayload prompt).prompt = .transportError e) :
    make_api_call service prompt = .error (.runtimeError ("API call failed: " ++ e)) := by
  unfold make_api_call
  rw [h]

theorem make_api_call_eq_http (service : String → ApiResult) (prompt e : String)
    (h : service (apiPayload prompt).prompt = .httpError e) :
    make_api_call service prompt = .error (.runtimeError ("API call failed: " ++ e)) := by
  unfold make_api_call
  rw [h]

theorem make_api_call_ok_inv (service : String → ApiResult) (prompt s : String)
    (h : make_api_call service prompt = .ok s) : s ≠ "" ∧ pyStrip s = s := by
  cases hsv : service (apiPayload prompt).prompt with
  | transportError e =>
    rw [make_api_call_eq_transport service prompt e hsv] at h
    exact Except.noConfusion h
  | httpError e =>
    rw [make_api_call_eq_http service prompt e hsv] at h
    exact Except.noConfusion h
  | ok body =>
    rw [make_api_call_eq_ok service prompt body hsv] at h
    exact extractText_ok_inv body s h

theorem make_api_call_ok_of_text (service : String → ApiResult)
    (prompt t : String) (rest : List Choice)
    (hsv : service (pyStrip prompt) = .ok ⟨some (⟨some t⟩ :: rest)⟩)
    (ht : pyStrip t ≠ "") :
    make_api_call service prompt = .ok (pyStrip t) := by
  rw [make_api_call_eq_ok service prompt ⟨some (⟨some t⟩ :: rest)⟩ hsv]
  rw [extractText_cons ⟨some (⟨some t⟩ :: rest)⟩ ⟨some t⟩ rest rfl]
  exact if_neg ht

theorem make_api_call_empty_of_text (service : String → ApiResult)
    (prompt t : String) (rest : List Choice)
    (hsv : service (pyStrip prompt) = .ok ⟨some (⟨some t⟩ :: rest)⟩)
    (ht : pyStrip t = "") :
    make_api_call service prompt = .error (.runtimeError "API returned an empty response.") := by
  rw [make_api_call_eq_ok service prompt ⟨some (⟨some t⟩ :: rest)⟩ hsv]
  rw [extractText_cons ⟨some (⟨some t⟩ :: rest)⟩ ⟨some t⟩ rest rfl]
  exact if_pos ht

theorem translate_text_eq_verdict (service : String → ApiResult)
    (st sl tl A B V : String)
    (h1 : make_api_call service (initial_prompt st sl tl) = .ok A)
    (h2 : make_api_call service (refine_prompt A tl) = .ok B)
    (h3 : make_api_call service (compare_prompt A B tl) = .ok V) :
    translate_text service st sl tl =
      if pyIn "Version 1" V then pure A
      else if pyIn "Version 2" V then pure B
      else .error (.valueError ("Unexpected output from API during comparison: " ++ V)) := by
  unfold translate_text
  simp only [h1, exceptBindOkEq, h2, h3]

theorem translate_text_err_step1 (service : String → ApiResult)
    (st sl tl : String) (e : PyError)
    (h1 : make_api_call service (initial_prompt st sl tl) = .error e) :
    translate_text service st sl tl = .error e := by
  unfold translate_text
  simp only [h1, exceptBindErrEq]

theorem translate_text_err_step2 (service : String → ApiResult)
    (st sl tl A : String) (e : PyError)
    (h1 : make_api_call service (initial_prompt st sl tl) = .ok A)
    (h2 : make_api_call service (refine_prompt A tl) = .error e) :
    translate_text service st sl tl = .error e := by
  unfold translate_text
  simp only [h1, exceptBindOkEq, h2, exceptBindErrEq]

theorem translate_text_err_step3 (service : String → ApiResult)
    (st sl tl A B : String) (e : PyError)
    (h1 : make_api_call service (initial_prompt st sl tl) = .ok A)
    (h2 : make_api_call service (refine_prompt A tl) = .ok B)
    (h3 : make_api_call service (compare_prompt A B tl) = .error e) :
    translate_text service st sl tl = .error e := by
  unfold translate_text
  simp only [h1, exceptBindOkEq, h2, h3, exceptBindErrEq]

theorem trace_eq_step1_err (service : String → ApiResult)
    (st sl tl : String) (e : PyError)
    (h1 : make_api_call service (initial_prompt st sl tl) = .error e) :
    translate_text_trace service st sl tl = [pyStrip (initial_prompt st sl tl)] := by
  simp only [translate_text_trace, h1]

theorem trace_eq_step2_err (service : String → ApiResult)
    (st sl tl A : String) (e : PyError)
    (h1 : make_api_call service (initial_prompt st sl tl) = .ok A)
    (h2 : make_api_call service (refine_prompt A tl) = .error e) :
    translate_text_trace service st sl tl =
      [pyStrip (initial_prompt st sl tl), pyStrip (refine_prompt A tl)] := by
  simp only [translate_text_trace, h1, h2]

theorem trace_eq_all_ok (service : String → ApiResult)
    (st sl tl A B : String)
    (h1 : make_api_call service (initial_prompt st sl tl) = .ok A)
    (h2 : make_api_call service (refine_prompt A tl) = .ok B) :
    translate_text_trace service st sl tl =
      [pyStrip (initial_prompt st sl tl), pyStrip (refine_prompt A tl),
       pyStrip (compare_prompt A B tl)] := by
  simp only [translate_text_trace, h1, h2]

/-! ### The claims -/

/-- C1: for every source text, source language and target language, and
every completion service whose three responses are well-formed non-empty
text (Candidate A, Candidate B, verdict V), `translate_text` returns
Candidate A when the arbitration response contains the substring
"Version 1", and otherwise returns Candidate B when it contains the
substring "Version 2". -/
theorem C1_arbitration_selects_labeled_candidate (service : String → ApiResult)
    (st sl tl A B V : String)
    (h1 : make_api_call service (initial_prompt st sl tl) = .ok A)
    (h2 : make_api_call service (refine_prompt A tl) = .ok B)
    (h3 : make_api_call service (compare_prompt A B tl) = .ok V) :
    (pyIn "Version 1" V = true → translate_text service st sl tl = .ok A) ∧
    (pyIn "Version 1" V = false → pyIn "Version 2" V = true →
      translate_text service st sl tl = .ok B) := by
  constructor
  · intro hv
    rw [translate_text_eq_verdict service st sl tl A B V h1 h2 h3, if_pos hv]
    rfl
  · intro hv1 hv2
    rw [translate_text_eq_verdict service st sl tl A B V h1 h2 h3,
      if_neg (by simp [hv1]), if_pos hv2]
    rfl

/-- Witness for C1: a mocked service returning "clearly Version 1"
everywhere makes `translate_text` return the initial candidate. -/
theorem C1_arbitration_witness :
    translate_text (fun _ => ApiResult.ok ⟨some [⟨some "clearly Version 1"⟩]⟩)
      "Hello world" "English" "French" = .ok "clearly Version 1" :=
  (C1_arbitration_selects_labeled_candidate _ "Hello world" "English" "French"
    "clearly Version 1" "clearly Version 1" "clearly Version 1"
    (by decide) (by decide) (by decide)).1 (by decide)

/-- C2: when the completion service answers some step with a string that
is empty after trimming, `translate_text` fails with the empty-response
`RuntimeError` and transmits no prompt for any step after the failing
one. -/
theorem C2_empty_response_aborts (service : String → ApiResult) (st sl tl : String) :
    (returnsEmptyText service (initial_prompt st sl tl) →
      translate_text service st sl tl =
        .error (.runtimeError "API returned an empty response.") ∧
      translate_text_trace service st sl tl = [pyStrip (initial_prompt st sl tl)]) ∧
    (∀ A, make_api_call service (initial_prompt st sl tl) = .ok A →
      returnsEmptyText service (refine_prompt A tl) →
      translate_text service st sl tl =
        .error (.runtimeError "API returned an empty response.") ∧
      translate_text_trace service st sl tl =
        [pyStrip (initial_prompt st sl tl), pyStrip (refine_prompt A tl)]) ∧
    (∀ A B, make_api_call service (initial_prompt st sl tl) = .ok A →
      make_api_call service (refine_prompt A tl) = .ok B →
      returnsEmptyText service (compare_prompt A B tl) →
      translate_text service st sl tl =
        .error (.runtimeError "API returned an empty response.") ∧
      translate_text_trace service st sl tl =
        [pyStrip (initial_prompt st sl tl), pyStrip (refine_prompt A tl),
         pyStrip (compare_prompt A B tl)]) := by
  refine ⟨?_, ?_, ?_⟩
  · rintro ⟨t, rest, hsv, ht⟩
    have h1 := make_api_call_empty_of_text service _ t rest hsv ht
    exact ⟨translate_text_err_step1 service st sl tl _ h1,
      trace_eq_step1_err service st sl tl _ h1⟩
  · rintro A h1 ⟨t, rest, hsv, ht⟩
    have h2 := make_api_call_empty_of_text service _ t rest hsv ht
    exact ⟨translate_text_err_step2 service st sl tl A _ h1 h2,
      trace_eq_step2_err service st sl tl A _ h1 h2⟩
  · rintro A B h1 h2 ⟨t, rest, hsv, ht⟩
    have h3 := make_api_call_empty_of_text service _ t rest hsv ht
    exact ⟨translate_text_err_step3 service st sl tl A B _ h1 h2 h3,
      trace_eq_all_ok service st sl tl A B h1 h2⟩

/-- Witness for C2: a mocked service whose text is whitespace fails at
step 1 and transmits exactly one prompt. -/
theorem C2_empty_response_witness :
    translate_text (fun _ => ApiResult.ok ⟨some [⟨some "  "⟩]⟩) "Hi" "English" "German" =
      .error (.runtimeError "API returned an empty response.") ∧
    translate_text_trace (fun _ => ApiResult.ok ⟨some [⟨some "  "⟩]⟩) "Hi" "English" "German" =
      [pyStrip (initial_prompt "Hi" "English" "German")] :=
  (C2_empty_response_aborts _ "Hi" "English" "German").1 ⟨"  ", [], rfl, by decide⟩

/-- C4: a verdict containing both "Version 1" and "Version 2" selects the
initial-translation candidate: the "Version 1" check has first-match
precedence. -/
theorem C4_both_markers_first_match (service : String → ApiResult)
    (st sl tl A B V : String)
    (h1 : make_api_call service (initial_prompt st sl tl) = .ok A)
    (h2 : make_api_call service (refine_prompt A tl) = .ok B)
    (h3 : make_api_call service (compare_prompt A B tl) = .ok V)
    (hv1 : pyIn "Version 1" V = true) (hv2 : pyIn "Version 2" V = true) :
    translate_text service st sl tl = .ok A := by
  rw [translate_text_eq_verdict service st sl tl A B V h1 h2 h3, if_pos hv1]
  rfl

/-- Witness for C4: a verdict naming both versions yields Candidate A. -/
theorem C4_both_markers_witness :
    translate_text (fun _ => ApiResult.ok ⟨some [⟨some "Version 1 beats Version 2"⟩]⟩)
      "Hello" "English" "Spanish" = .ok "Version 1 beats Version 2" :=
  C4_both_markers_first_match _ "Hello" "English" "Spanish"
    "Version 1 beats Version 2" "Version 1 beats Version 2" "Version 1 beats Version 2"
    (by decide) (by decide) (by decide) (by decide) (by decide)

/-- C5: a verdict containing neither marker makes `translate_text` fail
with a `ValueError` whose message contains the raw verdict text. -/
theorem C5_malformed_verdict (service : String → ApiResult)
    (st sl tl A B V : String)
    (h1 : make_api_call service (initial_prompt st sl tl) = .ok A)
    (h2 : make_api_call service (refine_prompt A tl) = .ok B)
    (h3 : make_api_call service (compare_prompt A B tl) = .ok V)
    (hv1 : pyIn "Version 1" V = false) (hv2 : pyIn "Version 2" V = false) :
    translate_text service st sl tl =
      .error (.valueError ("Unexpected output from API during comparison: " ++ V)) ∧
    pyIn V ("Unexpected output from API during comparison: " ++ V) = true := by
  refine ⟨?_, pyIn_append_self _ V⟩
  rw [translate_text_eq_verdict service st sl tl A B V h1 h2 h3,
    if_neg (by simp [hv1]), if_neg (by simp [hv2])]

/-- Witness for C5: a verdict naming neither version fails with the
`ValueError` carrying the raw verdict. -/
theorem C5_malformed_verdict_witness :
    translate_text (fun _ => ApiResult.ok ⟨some [⟨some "I cannot tell"⟩]⟩)
      "Hey" "English" "Italian" =
      .error (.valueError "Unexpected output from API during comparison: I cannot tell") ∧
    pyIn "I cannot tell" "Unexpected output from API during comparison: I cannot tell" = true := by
  have h := C5_malformed_verdict
    (fun _ => ApiResult.ok ⟨some [⟨some "I cannot tell"⟩]⟩) "Hey" "English" "Italian"
    "I cannot tell" "I cannot tell" "I cannot tell"
    (by decide) (by decide) (by decide) (by decide) (by decide)
  simpa using h

/-- C3: shape deviations of the HTTP response at `make_api_call`: a
missing `choices` array, a missing `text` field, a transport error and a
non-2xx status all surface as the single `RuntimeError` kind — but a
present-and-empty `choices` array raises `IndexError` (uncaught by the
`requests` handler), deviating from the claimed single error kind. -/
theorem C3_shape_deviation_error_kinds :
    make_api_call (fun _ => ApiResult.ok ⟨none⟩) "p" =
      .error (.runtimeError "API returned an empty response.") ∧
    make_api_call (fun _ => ApiResult.ok ⟨some [⟨none⟩]⟩) "p" =
      .error (.runtimeError "API returned an empty response.") ∧
    make_api_call (fun _ => ApiResult.transportError "connection refused") "p" =
      .error (.runtimeError "API call failed: connection refused") ∧
    make_api_call (fun _ => ApiResult.httpError "500 Server Error") "p" =
      .error (.runtimeError "API call failed: 500 Server Error") ∧
    make_api_call (fun _ => ApiResult.ok ⟨some []⟩) "p" =
      .error (.indexError "list index out of range") := by
  refine ⟨rfl, rfl, rfl, rfl, rfl⟩

/-- C6: `make_api_call` puts the prompt stripped of leading and trailing
whitespace into the request payload — removing nothing else, so embedded
whitespace is preserved verbatim — and on success returns the first
choice text stripped of leading and trailing whitespace. -/
theorem C6_prompt_and_result_trimming (prompt : String) :
    (apiPayload prompt).prompt = pyStrip prompt ∧
    (∃ pre suf, prompt.data = pre ++ (pyStrip prompt).data ++ suf ∧
      (∀ c ∈ pre, Char.isWhitespace c) ∧ (∀ c ∈ suf, Char.isWhitespace c)) ∧
    (∀ (service : String → ApiResult) (t : String) (rest : List Choice),
      service (pyStrip prompt) = .ok ⟨some (⟨some t⟩ :: rest)⟩ →
      pyStrip t ≠ "" →
      make_api_call service prompt = .ok (pyStrip t)) := by
  refine ⟨rfl, pyStrip_split prompt, ?_⟩
  intro service t rest hsv ht
  exact make_api_call_ok_of_text service prompt t rest hsv ht

/-- Witness for C6: the prompt is sent trimmed with inner spaces intact,
and the returned text is the trimmed first choice text. -/
theorem C6_trimming_witness :
    make_api_call (fun _ => ApiResult.ok ⟨some [⟨some " le  chat "⟩]⟩) "  bonjour  " =
      .ok "le  chat" := by
  have h := (C6_prompt_and_result_trimming "  bonjour  ").2.2
    (fun _ => ApiResult.ok ⟨some [⟨some " le  chat "⟩]⟩) " le  chat " [] rfl (by decide)
  rw [(by decide : pyStrip " le  chat " = "le  chat")] at h
  exact h

/-- C7: every string returned by `make_api_call`, and hence every string
returned by `translate_text`, is non-empty and has no leading or
trailing whitespace. -/
theorem C7_nonempty_trimmed_invariant (service : String → ApiResult) :
    (∀ prompt s, make_api_call service prompt = .ok s → s ≠ "" ∧ pyStrip s = s) ∧
    (∀ st sl tl s, translate_text service st sl tl = .ok s → s ≠ "" ∧ pyStrip s = s) := by
  refine ⟨fun prompt s h => make_api_call_ok_inv service prompt s h, ?_⟩
  intro st sl tl s h
  cases h1 : make_api_call service (initial_prompt st sl tl) with
  | error e =>
    rw [translate_text_err_step1 service st sl tl e h1] at h
    exact Except.noConfusion h
  | ok A =>
    cases h2 : make_api_call service (refine_prompt A tl) with
    | error e =>
      rw [translate_text_err_step2 service st sl tl A e h1 h2] at h
      exact Except.noConfusion h
    | ok B =>
      cases h3 : make_api_call service (compare_prompt A B tl) with
      | error e =>
        rw [translate_text_err_step3 service st sl tl A B e h1 h2 h3] at h
        exact Except.noConfusion h
      | ok V =>
        rw [translate_text_eq_verdict service st sl tl A B V h1 h2 h3] at h
        by_cases hv1 : pyIn "Version 1" V = true
        · rw [if_pos hv1] at h
          have hA : A = s := Except.ok.inj h
          rw [← hA]
          exact make_api_call_ok_inv service _ A h1
        · rw [if_neg hv1] at h
          by_cases hv2 : pyIn "Version 2" V = true
          · rw [if_pos hv2] at h
            have hB : B = s := Except.ok.inj h
            rw [← hB]
            exact make_api_call_ok_inv service _ B h2
          · rw [if_neg hv2] at h
            exact Except.noConfusion h

/-- Witness for C7 at a concrete run of `make_api_call`. -/
theorem C7_invariant_witness :
    "Bonjour" ≠ "" ∧ pyStrip "Bonjour" = "Bonjour" :=
  (C7_nonempty_trimmed_invariant (fun _ => ApiResult.ok ⟨some [⟨some "Bonjour"⟩]⟩)).1
    "salut" "Bonjour" (by decide)

/-- C8: the output write is the last step of the driver: a missing input
file or any orchestrator failure produces no write, and on success the
output file receives exactly the orchestrator's returned text, once. -/
theorem C8_output_write_last (fs : String → Option String)
    (service : String → ApiResult) (infile outfile sl tl : String) :
    (fs infile = none →
      (run_main fs service infile outfile sl tl).written = none) ∧
    (∀ src e, fs infile = some src → translate_text service src sl tl = .error e →
      (run_main fs service infile outfile sl tl).written = none) ∧
    (∀ src t, fs infile = some src → translate_text service src sl tl = .ok t →
      run_main fs service infile outfile sl tl = ⟨0, .success, some t⟩) := by
  refine ⟨?_, ?_, ?_⟩
  · intro h
    simp only [run_main, h]
  · intro src e hf ht
    cases e <;> simp only [run_main, hf, ht]
  · intro src t hf ht
    simp only [run_main, hf, ht]

/-- Witness for C8: the spec scenario — input "Hello world", verdict
naming Version 2 — writes exactly the refined candidate. -/
theorem C8_output_write_witness :
    run_main (fun p => if p = "in.txt" then some "Hello world" else none)
      (fun _ => ApiResult.ok ⟨some [⟨some "Bonjour Version 2"⟩]⟩)
      "in.txt" "out.txt" "English" "French" =
      ⟨0, .success, some "Bonjour Version 2"⟩ :=
  (C8_output_write_last _ _ "in.txt" "out.txt" "English" "French").2.2
    "Hello world" "Bonjour Version 2" (by decide) (by decide)

/-- C9: a missing input file makes the driver exit 1 with the dedicated
file-not-found diagnostic — a constructor distinct from every other
diagnostic kind — and transmit no prompt to the completion endpoint. -/
theorem C9_input_not_found (fs : String → Option String)
    (service : String → ApiResult) (infile outfile sl tl : String)
    (h : fs infile = none) :
    run_main fs service infile outfile sl tl =
      ⟨1, .fileNotFound ("Error: File not found - " ++ infile), none⟩ ∧
    run_main_calls fs service infile outfile sl tl = [] ∧
    (∀ m1 m2 : String, Diag.fileNotFound m1 ≠ Diag.translationError m2 ∧
      Diag.fileNotFound m1 ≠ Diag.verdictError m2 ∧
      Diag.fileNotFound m1 ≠ Diag.unexpected m2 ∧
      Diag.fileNotFound m1 ≠ Diag.success) := by
  refine ⟨?_, ?_, ?_⟩
  · simp only [run_main, h]
  · simp only [run_main_calls, h]
  · intro m1 m2
    refine ⟨?_, ?_, ?_, ?_⟩ <;> intro hc <;> exact Diag.noConfusion hc

/-- Witness for C9 at a concrete empty file system. -/
theorem C9_input_not_found_witness :
    run_main (fun _ => none) (fun _ => ApiResult.ok ⟨some [⟨some "x"⟩]⟩)
      "missing.txt" "out.txt" "English" "French" =
      ⟨1, .fileNotFound ("Error: File not found - " ++ "missing.txt"), none⟩ ∧
    run_main_calls (fun _ => none) (fun _ => ApiResult.ok ⟨some [⟨some "x"⟩]⟩)
      "missing.txt" "out.txt" "English" "French" = [] := by
  have h := C9_input_not_found (fun _ => none)
    (fun _ => ApiResult.ok ⟨some [⟨some "x"⟩]⟩)
    "missing.txt" "out.txt" "English" "French" rfl
  exact ⟨h.1, h.2.1⟩

/-- C10: `translate_text` is deterministic in its inputs and the
completion service: two services with the same input-output behaviour
give the same result on the same translation request. -/
theorem C10_deterministic (s1 s2 : String → ApiResult)
    (h : ∀ p, s1 p = s2 p) (st sl tl : String) :
    translate_text s1 st sl tl = translate_text s2 st sl tl := by
  have hs : s1 = s2 := funext h
  rw [hs]

/-- Witness for C10 at a concrete service. -/
theorem C10_deterministic_witness :
    translate_text (fun _ => ApiResult.ok ⟨some [⟨some "ok Version 1"⟩]⟩) "a" "b" "c" =
    translate_text (fun _ => ApiResult.ok ⟨some [⟨some "ok Version 1"⟩]⟩) "a" "b" "c" :=
  C10_deterministic _ _ (fun p => rfl) "a" "b" "c"
